import Mathlib

/-!
# ALEInterface (src/ale_interface.hpp)

A shallow embedding of the class ALEInterface: its data members become a
record, each member function becomes a function that takes the record and
returns the result together with the record after the call.  The classes the
header only uses (the controller with its environment and game settings, the
OSystem and its Settings, FilesystemNode) live in headers that are not part of
the source; their operations are parameters of the embedding.
-/

namespace ALE

/-! ## The controller seen from the interface -/

/-- The operations of the controller object that the interface calls, over an
arbitrary controller state C (the InternalController together with its
m_environment and m_settings).  The calls that drive the emulator
(applyActions, display, m_environment.reset) transform the controller state;
the accessors (getReward, isTerminal, getFrameNumber, getEpisodeFrameNumber)
read it.  PLAYER_B_NOOP is the constant of the Action enumeration that the
interface passes for the second port. -/
structure ControllerOps (Action C : Type) where
  PLAYER_B_NOOP : Action
  applyActions : C → Action → Action → C
  getReward : C → Int
  display : C → C
  reset : C → C
  isTerminal : C → Bool
  getFrameNumber : C → Int
  getEpisodeFrameNumber : C → Int

/-- The data members of ALEInterface that the public member functions use:
controller, episode_score, display_active and max_num_frames. -/
structure ALEInterface (C : Type) where
  controller : C
  episode_score : Int
  display_active : Bool
  max_num_frames : Int
  deriving DecidableEq, Repr

variable {Action C : Type}

/-- Member reset_game: controller->m_environment.reset(). -/
def reset_game (ops : ControllerOps Action C) (s : ALEInterface C) : ALEInterface C :=
  { s with controller := ops.reset s.controller }

/-- Member getFrameNumber: returns controller->m_environment.getFrameNumber(). -/
def getFrameNumber (ops : ControllerOps Action C) (s : ALEInterface C) :
    Int × ALEInterface C :=
  (ops.getFrameNumber s.controller, s)

/-- Member getEpisodeFrameNumber: returns
controller->m_environment.getEpisodeFrameNumber(). -/
def getEpisodeFrameNumber (ops : ControllerOps Action C) (s : ALEInterface C) :
    Int × ALEInterface C :=
  (ops.getEpisodeFrameNumber s.controller, s)

/-- Member game_over: isTerminal() || (max_num_frames > 0 &&
getEpisodeFrameNumber() >= max_num_frames), with the short-circuit order of
the source. -/
def game_over (ops : ControllerOps Action C) (s : ALEInterface C) :
    Bool × ALEInterface C :=
  if ops.isTerminal s.controller then (true, s)
  else if s.max_num_frames > 0 then
    let r := getEpisodeFrameNumber ops s
    (decide (r.1 ≥ r.2.max_num_frames), r.2)
  else (false, s)

/-- Member act: applyActions(action, PLAYER_B_NOOP), then the reward is read
from the game settings, then display(), then the reward is returned. -/
def act (ops : ControllerOps Action C) (s : ALEInterface C) (action : Action) :
    Int × ALEInterface C :=
  let c1 := ops.applyActions s.controller action ops.PLAYER_B_NOOP
  let reward := ops.getReward c1
  let c2 := ops.display c1
  (reward, { s with controller := c2 })

/-- Member setMaxNumFrames: max_num_frames = newMax. -/
def setMaxNumFrames (s : ALEInterface C) (newMax : Int) : ALEInterface C :=
  { s with max_num_frames := newMax }

/-- A run of act calls, one per action of the list, in order; the rewards the
calls return are collected in order. -/
def actAll (ops : ControllerOps Action C) :
    ALEInterface C → List Action → List Int × ALEInterface C
  | s, [] => ([], s)
  | s, a :: rest =>
    let r := act ops s a
    let q := actAll ops r.2 rest
    (r.1 :: q.1, q.2)

/-- The values returned by n successive game_over calls, and the record after
the last of them. -/
def game_over_repeat (ops : ControllerOps Action C) :
    Nat → ALEInterface C → List Bool × ALEInterface C
  | 0, s => ([], s)
  | n + 1, s =>
    let r := game_over ops s
    let q := game_over_repeat ops n r.2
    (r.1 :: q.1, q.2)

/-! ## Recording the calls that reach the controller -/

/-- A state-changing call received by the controller. -/
inductive Call (Action : Type) where
  | applyActions (a b : Action)
  | display
  | reset
  deriving DecidableEq, Repr

/-- The controller of ops with a journal: every state-changing call is
appended to the journal, in the order received; accessors read through. -/
def recording (ops : ControllerOps Action C) :
    ControllerOps Action (C × List (Call Action)) where
  PLAYER_B_NOOP := ops.PLAYER_B_NOOP
  applyActions c a b := (ops.applyActions c.1 a b, c.2 ++ [Call.applyActions a b])
  getReward c := ops.getReward c.1
  display c := (ops.display c.1, c.2 ++ [Call.display])
  reset c := (ops.reset c.1, c.2 ++ [Call.reset])
  isTerminal c := ops.isTerminal c.1
  getFrameNumber c := ops.getFrameNumber c.1
  getEpisodeFrameNumber c := ops.getEpisodeFrameNumber c.1

/-! ## The environment of the spec -/

/-- Modelled from the spec: the loaded title, that is the emulator core with
the per-title RewardPolicy (sections 2, 4.3, 4.4), whose code is not part of
the source.  boot is the console state right after creation, start restores
the start-of-episode state, tick steps the console one logical game tick
under the inputs of the two ports, terminal is the win/loss detection of the
title, reward is computed from the current console state. -/
structure Title (Action σ : Type) where
  noopB : Action
  boot : σ
  start : σ → σ
  tick : σ → Action → Action → σ
  terminal : σ → Bool
  reward : σ → Int

/-- Modelled from the spec: GameSession (sections 3 and 4.3), whose code
(the environment class behind m_environment) is not part of the source: the
console handle and the two counters FrameCounter and EpisodeFrameCounter. -/
structure GameSession (σ : Type) where
  console : σ
  frame_number : Int
  episode_frame_number : Int
  deriving DecidableEq, Repr

/-- Modelled from the spec: the GameSession of a newly created controller
(the constructor of InternalController is not part of the source); no tick
has completed, both counters are 0 (section 8, the scenario: one act after
load gives EpisodeFrameCounter 1 and FrameCounter 1). -/
def GameSession.fresh {Action σ : Type} (t : Title Action σ) : GameSession σ :=
  { console := t.boot, frame_number := 0, episode_frame_number := 0 }

/-- Modelled from the spec: the controller operations, whose code
(InternalController::applyActions and display, the environment reset and
accessors, the reward accessor of the game settings) is not part of the
source.  Section 3: both counters are incremented exactly once per completed
action-application tick, reset resets only the episode counter.  Section 4.1:
reset restores the start-of-episode state; the reward is computed against
the post-tick state; the display refresh is a side effect outside the
session.  Section 4.3: isTerminal delegates to the title. -/
def specOps {Action σ : Type} (t : Title Action σ) : ControllerOps Action (GameSession σ) where
  PLAYER_B_NOOP := t.noopB
  applyActions g a b :=
    { console := t.tick g.console a b
      frame_number := g.frame_number + 1
      episode_frame_number := g.episode_frame_number + 1 }
  getReward g := t.reward g.console
  display g := g
  reset g := { g with console := t.start g.console, episode_frame_number := 0 }
  isTerminal g := t.terminal g.console
  getFrameNumber g := g.frame_number
  getEpisodeFrameNumber g := g.episode_frame_number

/-- A call of a public member function after loadROM. -/
inductive Op (Action : Type) where
  | act (a : Action)
  | reset_game
  | game_over
  | setMaxNumFrames (n : Int)
  | getFrameNumber
  | getEpisodeFrameNumber
  deriving DecidableEq, Repr

/-- The record after one call of a public member function. -/
def step (ops : ControllerOps Action C) (s : ALEInterface C) : Op Action → ALEInterface C
  | Op.act a => (act ops s a).2
  | Op.reset_game => reset_game ops s
  | Op.game_over => (game_over ops s).2
  | Op.setMaxNumFrames n => setMaxNumFrames s n
  | Op.getFrameNumber => (getFrameNumber ops s).2
  | Op.getEpisodeFrameNumber => (getEpisodeFrameNumber ops s).2

/-- The record after a sequence of calls of public member functions. -/
def run (ops : ControllerOps Action C) (s : ALEInterface C) (calls : List (Op Action)) :
    ALEInterface C :=
  calls.foldl (step ops) s

/-! ## Construction and loadROM -/

/-- The Settings object of the OSystem, as the map from keys to values. -/
abbrev Settings := String → String

/-- Settings::setString: the value of the key is replaced. -/
def Settings.setString (s : Settings) (key value : String) : Settings :=
  fun k => if k = key then value else s k

/-- A call that createOSystem and loadROM make on the collaborators, recorded
in the order made. -/
inductive SysCall where
  | redirectOutput (outputFile : String)
  | fileExists (romfile : String)
  | createConsole (romfile : String)
  | srandTime
  | srand (seed : Int)
  | setPalette (name : String)
  | newInternalController
  | reset_game
  deriving DecidableEq, Repr

/-- The state of the process around the interface: the settings of the
OSystem, the lines written to cout and to cerr, the member redirected_file,
and the journal of calls on the collaborators. -/
structure Proc where
  settings : Settings
  cout : List String
  cerr : List String
  redirected_file : Option String
  calls : List SysCall

/-- How a member function leaves: it returns a value, or the process ends
through exit(status), or an assert fails. -/
inductive Outcome (α : Type) where
  | ok (val : α) (p : Proc)
  | exit (status : Int) (p : Proc)
  | assertFail (p : Proc)

/-- The process state with which a member function leaves. -/
def Outcome.proc {α : Type} : Outcome α → Proc
  | Outcome.ok _ p => p
  | Outcome.exit _ p => p
  | Outcome.assertFail p => p

/-- The exit status when the process ends through exit. -/
def Outcome.status? {α : Type} : Outcome α → Option Int
  | Outcome.exit st _ => some st
  | _ => none

/-- The value returned, when the member function returns. -/
def Outcome.val? {α : Type} : Outcome α → Option α
  | Outcome.ok v _ => some v
  | _ => none

/-- The collaborators of createOSystem whose code is not part of the source:
setDefaultSettings, Settings::loadConfig (without and with a file name),
Settings::loadCommandLine (returns the ROM path), Settings::validate, the
conversion behind Settings::getInt, FilesystemNode::fileExists,
OSystem::createConsole, and the constructor of InternalController; with them
the directive NDEBUG of the compilation, under which assert does nothing. -/
structure Externals (C : Type) where
  NDEBUG : Bool
  setDefaultSettings : Settings
  loadConfig : Option String → Settings → Settings
  loadCommandLine : List String → Settings → String × Settings
  validate : Settings → Settings
  toInt : String → Int
  fileExists : String → Bool
  createConsole : String → Bool
  newInternalController : Settings → C

/-- The constant Version. -/
def Version : String := "0.4"

/-- Function welcomeMessage. -/
def welcomeMessage : String :=
  "A.L.E: Arcade Learning Environment (version " ++ Version ++ ")\n"
    ++ "[Powered by Stella]\n"
    ++ "Use -help for help screen."

/-- The members set by the constructor: episode_score(0) and
display_active(display_screen); controller is still empty and max_num_frames
is not yet assigned. -/
structure Constructed where
  episode_score : Int
  display_active : Bool

/-- The constructor ALEInterface(bool display_screen).  USE_SDL tells whether
the directive __USE_SDL is defined for the compilation.  The call of
disableBufferedIO only changes buffering and is not recorded. -/
def ALEInterface.construct (USE_SDL : Bool) (display_screen : Bool) (p : Proc) :
    Outcome Constructed :=
  let self : Constructed := { episode_score := 0, display_active := display_screen }
  if !USE_SDL && self.display_active then
    Outcome.exit 0 { p with cout := p.cout ++
      ["Screen display requires directive __USE_SDL to be defined.",
       "Please recompile this code with flag \x27-D__USE_SDL\x27.",
       "Also ensure ALE has been compiled with USE_SDL active (see ALE makefile)."] }
  else
    Outcome.ok self { p with cerr := p.cerr ++ [welcomeMessage] }

/-- Member redirectOutput. -/
def redirectOutput (outputFile : String) (p : Proc) : Proc :=
  { p with
    cerr := p.cerr ++ ["Redirecting ... " ++ outputFile]
    redirected_file := some outputFile
    calls := p.calls ++ [SysCall.redirectOutput outputFile] }

/-- The first part of createOSystem, up to the redirection of the output: a
new OSystem with new Settings is created, the settings are built from the
defaults, the configuration and the command line, then validated; returns
the ROM path given by loadCommandLine.  The call theOSystem->create() acts
on the collaborator only and leaves the recorded state as it is. -/
def createOSystem_settings {C : Type} (ext : Externals C) (argv : List String) (p : Proc) :
    String × Proc :=
  let s1 := ext.loadConfig none ext.setDefaultSettings
  let r := ext.loadCommandLine argv s1
  let romfile := r.1
  let configFile := r.2 "config"
  let s3 := if configFile ≠ "" then ext.loadConfig (some configFile) r.2 else r.2
  let s4 := ext.validate s3
  let p1 := { p with settings := s4 }
  let outputFile := p1.settings "output_file"
  (romfile, if outputFile ≠ "" then redirectOutput outputFile p1 else p1)

/-- The part of createOSystem under the comment attempt to load the ROM. -/
def createOSystem_rom {C : Type} (ext : Externals C) (argc : Int) (romfile : String) (p : Proc) :
    Outcome Unit :=
  if argc = 1 ∨ romfile = "" then
    Outcome.exit 1 { p with
      cerr := p.cerr ++ ["No ROM File specified or the ROM file was not found."] }
  else if !ext.fileExists romfile then
    Outcome.exit 1 { p with
      cerr := p.cerr ++ ["No ROM File specified or the ROM file was not found."]
      calls := p.calls ++ [SysCall.fileExists romfile] }
  else if ext.createConsole romfile then
    Outcome.ok () { p with
      cerr := p.cerr ++ ["Running ROM file..."]
      settings := p.settings.setString "rom_file" romfile
      calls := p.calls ++ [SysCall.fileExists romfile, SysCall.createConsole romfile] }
  else
    Outcome.exit 1 { p with
      calls := p.calls ++ [SysCall.fileExists romfile, SysCall.createConsole romfile] }

/-- The part of createOSystem under the comment seed random number generator,
followed by the selection of the palette; srand receives the seed converted
to unsigned (32 bits). -/
def createOSystem_seed {C : Type} (ext : Externals C) (p : Proc) : Outcome Unit :=
  if p.settings "random_seed" = "time" then
    Outcome.ok () { p with
      cerr := p.cerr ++ ["Random Seed: Time"]
      calls := p.calls ++ [SysCall.srandTime, SysCall.setPalette "standard"] }
  else
    let seed := ext.toInt (p.settings "random_seed")
    if ext.NDEBUG ∨ seed ≥ 0 then
      Outcome.ok () { p with
        cerr := p.cerr ++ ["Random Seed: " ++ toString seed]
        calls := p.calls ++ [SysCall.srand (seed % 4294967296), SysCall.setPalette "standard"] }
    else
      Outcome.assertFail p

/-- Member createOSystem. -/
def createOSystem {C : Type} (ext : Externals C) (argc : Int) (argv : List String) (p : Proc) :
    Outcome Unit :=
  let r := createOSystem_settings ext argv p
  match createOSystem_rom ext argc r.1 r.2 with
  | Outcome.ok _ p2 => createOSystem_seed ext p2
  | Outcome.exit st p2 => Outcome.exit st p2
  | Outcome.assertFail p2 => Outcome.assertFail p2

/-- The indices i for which the body of the loop
for (int i=0; i<=argc; i++) argv[i] = new char[200] runs, in order; the first
argument bounds the number of iterations unrolled. -/
def argvLoop (argc : Int) : Nat → Int → List Int
  | 0, _ => []
  | fuel + 1, i => if i ≤ argc then i :: argvLoop argc fuel (i + 1) else []

/-- The value of argc in loadROM, the number of elements of new char*[argc]. -/
def loadROM_argc : Int := 6

/-- The indices at which the loop of loadROM writes argv[i]. -/
def loadROM_argvWrites : List Int :=
  argvLoop loadROM_argc (loadROM_argc.toNat + 2) 0

/-- The command line that loadROM builds with strcpy into argv[0] to argv[5];
strings are values here, the buffers of 200 characters are not modelled. -/
def loadROM_argv (display_active : Bool) (rom_file : String) : List String :=
  ["./ale", "-player_agent", "random_agent", "-display_screen",
   if display_active then "true" else "false", rom_file]

/-- Member loadROM. -/
def loadROM (ext : Externals C) (ops : ControllerOps Action C) (self : Constructed)
    (rom_file : String) (p : Proc) : Outcome (ALEInterface C) :=
  let argc := loadROM_argc
  let argv := loadROM_argv self.display_active rom_file
  match createOSystem ext argc argv p with
  | Outcome.ok _ p1 =>
    let controller := ext.newInternalController p1.settings
    let max_num_frames := ext.toInt (p1.settings "max_num_frames_per_episode")
    let s : ALEInterface C :=
      { controller := controller
        episode_score := self.episode_score
        display_active := self.display_active
        max_num_frames := max_num_frames }
    Outcome.ok (reset_game ops s)
      { p1 with calls := p1.calls ++ [SysCall.newInternalController, SysCall.reset_game] }
  | Outcome.exit st p1 => Outcome.exit st p1
  | Outcome.assertFail p1 => Outcome.assertFail p1

/-- The ROM path that createOSystem resolves for a loadROM call. -/
def resolvedRom (ext : Externals C) (self : Constructed) (rom_file : String) (p : Proc) :
    String :=
  (createOSystem_settings ext (loadROM_argv self.display_active rom_file) p).1

/-- The process state in which a loadROM call reaches the ROM step. -/
def atRomStep (ext : Externals C) (self : Constructed) (rom_file : String) (p : Proc) : Proc :=
  (createOSystem_settings ext (loadROM_argv self.display_active rom_file) p).2

/-- The seeding step goes through under the settings st: random_seed is
time, or assert is compiled out, or the integer value of random_seed is not
negative. -/
def seedAccepted (ext : Externals C) (st : Settings) : Bool :=
  decide (st "random_seed" = "time") || ext.NDEBUG || decide (ext.toInt (st "random_seed") ≥ 0)

/-- The counters are ordered: the episode frame number is not negative and
not above the frame number. -/
def CountersOrdered {σ : Type} (s : ALEInterface (GameSession σ)) : Prop :=
  0 ≤ s.controller.episode_frame_number
    ∧ s.controller.episode_frame_number ≤ s.controller.frame_number

/-! ## A concrete title and concrete collaborators -/

/-- A small title: the console state is a number, a tick adds the inputs of
both ports to it, the title signals terminal from 100 on. -/
def demoTitle : Title Nat Nat where
  noopB := 0
  boot := 0
  start := fun _ => 0
  tick := fun c a b => c + a + b
  terminal := fun c => decide (c ≥ 100)
  reward := fun c => (c : Int)

/-- Settings with the given random_seed value and no frame budget. -/
def demoSettings (seed : String) : Settings := fun k =>
  if k = "random_seed" then seed
  else if k = "max_num_frames_per_episode" then "0"
  else ""

/-- Collaborators for demoTitle: the only existing file is pong.bin, the
ROM path is the last argument of the command line, console creation gives
consoleOk. -/
def demoExt (seed : String) (consoleOk : Bool) : Externals (GameSession Nat) where
  NDEBUG := false
  setDefaultSettings := demoSettings seed
  loadConfig := fun _ s => s
  loadCommandLine := fun argv s => (argv.getLastD "", s)
  validate := fun s => s
  toInt := fun v => if v = "-1" then -1 else 0
  fileExists := fun f => decide (f = "pong.bin")
  createConsole := fun _ => consoleOk
  newInternalController := fun _ => GameSession.fresh demoTitle

/-- A process state with nothing written yet. -/
def demoProc : Proc :=
  { settings := fun _ => "", cout := [], cerr := [], redirected_file := none, calls := [] }

/-- The members after the constructor call with display_screen false. -/
def demoSelf : Constructed := { episode_score := 0, display_active := false }

/-- The interface state after loadROM with the collaborators of demoExt. -/
def demoLoaded : ALEInterface (GameSession Nat) :=
  { controller := { console := 0, frame_number := 0, episode_frame_number := 0 }
    episode_score := 0
    display_active := false
    max_num_frames := 0 }

/-- An interface state over demoTitle: 5 frames in total, 3 in the episode. -/
def demoState : ALEInterface (GameSession Nat) :=
  { controller := { console := 7, frame_number := 5, episode_frame_number := 3 }
    episode_score := 0
    display_active := false
    max_num_frames := 0 }

/-! ## Lemmas on the member functions -/

theorem game_over_snd (ops : ControllerOps Action C) (s : ALEInterface C) :
    (game_over ops s).2 = s := by
  unfold game_over getEpisodeFrameNumber
  split
  · rfl
  · split <;> rfl

theorem game_over_fst (ops : ControllerOps Action C) (s : ALEInterface C) :
    (game_over ops s).1 =
      (ops.isTerminal s.controller ||
        (decide (s.max_num_frames > 0) &&
          decide (ops.getEpisodeFrameNumber s.controller ≥ s.max_num_frames))) := by
  unfold game_over getEpisodeFrameNumber
  by_cases ht : ops.isTerminal s.controller = true
  · simp [ht]
  · by_cases hm : s.max_num_frames > 0
    · simp [ht, hm]
    · simp [ht, hm]

/-! ## The claims on game_over, setMaxNumFrames and act -/

/-- C1: game_over returns true exactly when the terminal signal of the
environment is true, or max_num_frames is positive and the episode frame
number has reached it; with max_num_frames equal to 0 it returns the terminal
signal, whatever the controller state (so whatever the episode frame
number). -/
theorem game_over_iff (ops : ControllerOps Action C) (s : ALEInterface C) :
    ((game_over ops s).1 = true ↔
      (ops.isTerminal s.controller = true ∨
        (s.max_num_frames > 0 ∧
          (getEpisodeFrameNumber ops s).1 ≥ s.max_num_frames)))
    ∧ (game_over ops { s with max_num_frames := 0 }).1 = ops.isTerminal s.controller := by
  constructor
  · rw [game_over_fst]
    simp [getEpisodeFrameNumber]
  · rw [game_over_fst]
    simp

/-- C8: setMaxNumFrames n assigns max_num_frames and leaves the controller
(the environment with both frame counters), episode_score and display_active
as they were; the next game_over is computed from n and the current episode
frame number, so it is true at once when n is positive and that number has
already reached n. -/
theorem setMaxNumFrames_effect (ops : ControllerOps Action C) (s : ALEInterface C) (n : Int) :
    (setMaxNumFrames s n).max_num_frames = n
    ∧ (setMaxNumFrames s n).controller = s.controller
    ∧ (setMaxNumFrames s n).episode_score = s.episode_score
    ∧ (setMaxNumFrames s n).display_active = s.display_active
    ∧ (getFrameNumber ops (setMaxNumFrames s n)).1 = (getFrameNumber ops s).1
    ∧ (getEpisodeFrameNumber ops (setMaxNumFrames s n)).1 = (getEpisodeFrameNumber ops s).1
    ∧ (game_over ops (setMaxNumFrames s n)).1 =
        (ops.isTerminal s.controller ||
          (decide (n > 0) && decide ((getEpisodeFrameNumber ops s).1 ≥ n)))
    ∧ (n > 0 → (getEpisodeFrameNumber ops s).1 ≥ n →
        (game_over ops (setMaxNumFrames s n)).1 = true) := by
  refine ⟨rfl, rfl, rfl, rfl, rfl, rfl, ?_, ?_⟩
  · rw [game_over_fst]
    rfl
  · intro hn he
    rw [game_over_fst]
    have he2 : n ≤ ops.getEpisodeFrameNumber s.controller := he
    simp [setMaxNumFrames, hn, he2]

/-- C8, at demoState (episode frame number 3) with n = 3. -/
theorem setMaxNumFrames_effect_witness :
    (3 : Int) > 0 ∧ (getEpisodeFrameNumber (specOps demoTitle) demoState).1 ≥ 3
    ∧ (game_over (specOps demoTitle) demoState).1 = false
    ∧ (game_over (specOps demoTitle) (setMaxNumFrames demoState 3)).1 = true :=
  ⟨by decide, by decide, by decide,
    (setMaxNumFrames_effect (specOps demoTitle) demoState 3).2.2.2.2.2.2.2
      (by decide) (by decide)⟩

/-- C9: game_over leaves the whole record as it was (controller with the
environment and its counters, max_num_frames, episode_score, display_active),
it sends no state-changing call to the controller, and n successive calls
all return the value of the first. -/
theorem game_over_pure (ops : ControllerOps Action C) (s : ALEInterface C) (n : Nat) :
    (game_over ops s).2 = s
    ∧ (∀ journal : List (Call Action),
        (game_over (recording ops)
          { controller := (s.controller, journal)
            episode_score := s.episode_score
            display_active := s.display_active
            max_num_frames := s.max_num_frames }).2.controller.2 = journal)
    ∧ (game_over_repeat ops n s).2 = s
    ∧ (game_over_repeat ops n s).1 = List.replicate n (game_over ops s).1 := by
  refine ⟨game_over_snd ops s, ?_, ?_, ?_⟩
  · intro journal
    rw [game_over_snd]
  · induction n with
    | zero => rfl
    | succ k ih =>
      show (game_over_repeat ops k (game_over ops s).2).2 = s
      rw [game_over_snd]
      exact ih
  · induction n with
    | zero => rfl
    | succ k ih =>
      show (game_over ops s).1 :: (game_over_repeat ops k (game_over ops s).2).1 = _
      rw [game_over_snd, ih]
      rfl

/-- C5: for every action and every state (terminal or not), act sends the
controller exactly applyActions(a, PLAYER_B_NOOP) and then display, returns
the reward read between the two (on the state after applyActions), leaves
episode_score, max_num_frames and display_active as they were, and neither
its result nor the controller state after it depends on max_num_frames or
episode_score (hence not on game_over). -/
theorem act_effects (ops : ControllerOps Action C) (s : ALEInterface C) (a : Action) :
    (act ops s a).1 = ops.getReward (ops.applyActions s.controller a ops.PLAYER_B_NOOP)
    ∧ (act ops s a).2.controller =
        ops.display (ops.applyActions s.controller a ops.PLAYER_B_NOOP)
    ∧ (act ops s a).2.episode_score = s.episode_score
    ∧ (act ops s a).2.max_num_frames = s.max_num_frames
    ∧ (act ops s a).2.display_active = s.display_active
    ∧ (∀ journal : List (Call Action),
        (act (recording ops)
          { controller := (s.controller, journal)
            episode_score := s.episode_score
            display_active := s.display_active
            max_num_frames := s.max_num_frames } a).2.controller.2
          = journal ++ [Call.applyActions a ops.PLAYER_B_NOOP, Call.display])
    ∧ (∀ (m e : Int),
        (act ops { s with max_num_frames := m, episode_score := e } a).1 = (act ops s a).1
        ∧ (act ops { s with max_num_frames := m, episode_score := e } a).2.controller
            = (act ops s a).2.controller) := by
  refine ⟨rfl, rfl, rfl, rfl, rfl, ?_, ?_⟩
  · intro journal
    simp [act, recording]
  · intro m e
    exact ⟨rfl, rfl⟩

/-! ## The frame counters under the environment of the spec -/

section Counters

variable {σ : Type}

theorem actAll_episode (t : Title Action σ) (acts : List Action) :
    ∀ s : ALEInterface (GameSession σ),
      (actAll (specOps t) s acts).2.controller.episode_frame_number
        = s.controller.episode_frame_number + acts.length := by
  induction acts with
  | nil => intro s; simp [actAll]
  | cons a rest ih =>
    intro s
    show (actAll (specOps t) (act (specOps t) s a).2 rest).2.controller.episode_frame_number = _
    rw [ih]
    simp [act, specOps]
    ring

theorem actAll_frame (t : Title Action σ) (acts : List Action) :
    ∀ s : ALEInterface (GameSession σ),
      (actAll (specOps t) s acts).2.controller.frame_number
        = s.controller.frame_number + acts.length := by
  induction acts with
  | nil => intro s; simp [actAll]
  | cons a rest ih =>
    intro s
    show (actAll (specOps t) (act (specOps t) s a).2 rest).2.controller.frame_number = _
    rw [ih]
    simp [act, specOps]
    ring

theorem actAll_max (ops : ControllerOps Action C) (acts : List Action) :
    ∀ s : ALEInterface C, (actAll ops s acts).2.max_num_frames = s.max_num_frames := by
  induction acts with
  | nil => intro s; rfl
  | cons a rest ih =>
    intro s
    show (actAll ops (act ops s a).2 rest).2.max_num_frames = _
    rw [ih]
    rfl

theorem step_ordered (t : Title Action σ) (s : ALEInterface (GameSession σ))
    (h : CountersOrdered s) (c : Op Action) : CountersOrdered (step (specOps t) s c) := by
  obtain ⟨h0, h1⟩ := h
  cases c with
  | act a =>
    constructor
    · show 0 ≤ s.controller.episode_frame_number + 1
      omega
    · show s.controller.episode_frame_number + 1 ≤ s.controller.frame_number + 1
      omega
  | reset_game =>
    constructor
    · show (0 : Int) ≤ 0
      exact le_refl 0
    · show (0 : Int) ≤ s.controller.frame_number
      omega
  | game_over =>
    show CountersOrdered (game_over (specOps t) s).2
    rw [game_over_snd]
    exact ⟨h0, h1⟩
  | setMaxNumFrames n => exact ⟨h0, h1⟩
  | getFrameNumber => exact ⟨h0, h1⟩
  | getEpisodeFrameNumber => exact ⟨h0, h1⟩

theorem run_ordered (t : Title Action σ) (calls : List (Op Action)) :
    ∀ s : ALEInterface (GameSession σ), CountersOrdered s →
      CountersOrdered (run (specOps t) s calls) := by
  induction calls with
  | nil => intro s h; exact h
  | cons c rest ih =>
    intro s h
    show CountersOrdered (run (specOps t) (step (specOps t) s c) rest)
    exact ih _ (step_ordered t s h c)

theorem loadROM_ok_controller (ext : Externals C) (ops : ControllerOps Action C)
    (self : Constructed) (rom_file : String) (p : Proc) (s0 : ALEInterface C)
    (h : (loadROM ext ops self rom_file p).val? = some s0) :
    ∃ st : Settings, s0.controller = ops.reset (ext.newInternalController st) := by
  cases hco : createOSystem ext loadROM_argc (loadROM_argv self.display_active rom_file) p with
  | ok u p2 =>
    simp only [loadROM, hco, Outcome.val?, Option.some.injEq] at h
    exact ⟨p2.settings, by rw [← h]; rfl⟩
  | exit st p2 => simp [loadROM, hco, Outcome.val?] at h
  | assertFail p2 => simp [loadROM, hco, Outcome.val?] at h

/-- C3: under the environment of the spec, a sequence of N act calls adds N
to the episode frame number and N to the frame number, whatever the state and
the actions; one act call adds exactly one to each. -/
theorem act_advances_counters (t : Title Action σ) (s : ALEInterface (GameSession σ))
    (acts : List Action) (a : Action) :
    (getEpisodeFrameNumber (specOps t) (actAll (specOps t) s acts).2).1
        = (getEpisodeFrameNumber (specOps t) s).1 + acts.length
    ∧ (getFrameNumber (specOps t) (actAll (specOps t) s acts).2).1
        = (getFrameNumber (specOps t) s).1 + acts.length
    ∧ (getEpisodeFrameNumber (specOps t) (act (specOps t) s a).2).1
        = (getEpisodeFrameNumber (specOps t) s).1 + 1
    ∧ (getFrameNumber (specOps t) (act (specOps t) s a).2).1
        = (getFrameNumber (specOps t) s).1 + 1 :=
  ⟨actAll_episode t acts s, actAll_frame t acts s, rfl, rfl⟩

/-- C2: under the environment of the spec, for every M > 0, after
setMaxNumFrames(M), reset_game() and M act calls with any actions, game_over
returns true, whatever the terminal signal of the title. -/
theorem game_over_at_frame_budget (t : Title Action σ) (s : ALEInterface (GameSession σ))
    (M : Int) (hM : 0 < M) (acts : List Action) (hlen : (acts.length : Int) = M) :
    (game_over (specOps t)
      (actAll (specOps t) (reset_game (specOps t) (setMaxNumFrames s M)) acts).2).1 = true := by
  rw [game_over_fst, actAll_max]
  have he := actAll_episode t acts (reset_game (specOps t) (setMaxNumFrames s M))
  have hge : M ≤ (specOps t).getEpisodeFrameNumber
      (actAll (specOps t) (reset_game (specOps t) (setMaxNumFrames s M)) acts).2.controller := by
    show M ≤ (actAll (specOps t) (reset_game (specOps t)
      (setMaxNumFrames s M)) acts).2.controller.episode_frame_number
    rw [he, hlen]
    show M ≤ 0 + M
    omega
  have hpos : (reset_game (specOps t) (setMaxNumFrames s M)).max_num_frames > 0 := hM
  simp [hpos, hge]
  right
  exact hge

/-- C2, on demoTitle: budget 2 and two act calls with actions 1 and 2, after
which the title does not signal terminal. -/
theorem game_over_at_frame_budget_witness :
    (specOps demoTitle).isTerminal
        (actAll (specOps demoTitle)
          (reset_game (specOps demoTitle) (setMaxNumFrames demoState 2)) [1, 2]).2.controller
        = false
    ∧ (game_over (specOps demoTitle)
        (actAll (specOps demoTitle)
          (reset_game (specOps demoTitle) (setMaxNumFrames demoState 2)) [1, 2]).2).1 = true :=
  ⟨by decide, game_over_at_frame_budget demoTitle demoState 2 (by decide) [1, 2] (by decide)⟩

/-- C4: under the environment of the spec, in every state reset_game makes
getEpisodeFrameNumber return 0 and leaves the value of getFrameNumber as it
was; and in every state reached from a successful loadROM by calls of the
public member functions, getEpisodeFrameNumber is at most getFrameNumber. -/
theorem reset_game_counters (t : Title Action σ) :
    (∀ s : ALEInterface (GameSession σ),
      (getEpisodeFrameNumber (specOps t) (reset_game (specOps t) s)).1 = 0
      ∧ (getFrameNumber (specOps t) (reset_game (specOps t) s)).1
          = (getFrameNumber (specOps t) s).1)
    ∧ (∀ (ext : Externals (GameSession σ)) (self : Constructed) (rom_file : String)
        (p : Proc) (s0 : ALEInterface (GameSession σ)) (calls : List (Op Action)),
        (∀ st, ext.newInternalController st = GameSession.fresh t) →
        (loadROM ext (specOps t) self rom_file p).val? = some s0 →
        (getEpisodeFrameNumber (specOps t) (run (specOps t) s0 calls)).1
          ≤ (getFrameNumber (specOps t) (run (specOps t) s0 calls)).1) := by
  constructor
  · intro s
    exact ⟨rfl, rfl⟩
  · intro ext self rom_file p s0 calls hnew hload
    obtain ⟨st, hc⟩ := loadROM_ok_controller ext (specOps t) self rom_file p s0 hload
    have h0 : CountersOrdered s0 := by
      unfold CountersOrdered
      rw [hc, hnew]
      exact ⟨le_refl 0, le_refl 0⟩
    exact (run_ordered t calls s0 h0).2

/-- C4, on demoTitle: loadROM of pong.bin succeeds, and after three act
calls, a reset_game and one more act the counters are 1 and 4. -/
theorem reset_game_counters_witness :
    (loadROM (demoExt "time" true) (specOps demoTitle) demoSelf "pong.bin" demoProc).val?
        = some demoLoaded
    ∧ (getEpisodeFrameNumber (specOps demoTitle) (run (specOps demoTitle) demoLoaded
          [Op.act 1, Op.act 2, Op.act 3, Op.reset_game, Op.act 4])).1 = 1
    ∧ (getFrameNumber (specOps demoTitle) (run (specOps demoTitle) demoLoaded
          [Op.act 1, Op.act 2, Op.act 3, Op.reset_game, Op.act 4])).1 = 4
    ∧ (getEpisodeFrameNumber (specOps demoTitle) (run (specOps demoTitle) demoLoaded
          [Op.act 1, Op.act 2, Op.act 3, Op.reset_game, Op.act 4])).1
        ≤ (getFrameNumber (specOps demoTitle) (run (specOps demoTitle) demoLoaded
          [Op.act 1, Op.act 2, Op.act 3, Op.reset_game, Op.act 4])).1 :=
  ⟨by decide, by decide, by decide,
    (reset_game_counters demoTitle).2 (demoExt "time" true) demoSelf "pong.bin" demoProc
      demoLoaded [Op.act 1, Op.act 2, Op.act 3, Op.reset_game, Op.act 4]
      (fun _ => rfl) (by decide)⟩

end Counters

/-! ## Construction and loadROM: the claims -/

section Load

theorem loadROM_argc_ne_one : ¬ (loadROM_argc = 1) := by decide

theorem createOSystem_rom_missing (ext : Externals C) (romfile : String) (p : Proc)
    (h : romfile = "" ∨ ext.fileExists romfile = false) :
    (createOSystem_rom ext loadROM_argc romfile p).status? = some 1
    ∧ (createOSystem_rom ext loadROM_argc romfile p).val? = none
    ∧ ((createOSystem_rom ext loadROM_argc romfile p).proc.calls = p.calls
        ∨ (createOSystem_rom ext loadROM_argc romfile p).proc.calls
            = p.calls ++ [SysCall.fileExists romfile]) := by
  unfold createOSystem_rom
  by_cases he : romfile = ""
  · simp [he, Outcome.status?, Outcome.val?, Outcome.proc]
  · have hf : ext.fileExists romfile = false := by
      rcases h with h | h
      · exact absurd h he
      · exact h
    simp [he, hf, loadROM_argc_ne_one, Outcome.status?, Outcome.val?, Outcome.proc]

theorem createOSystem_rom_console (ext : Externals C) (romfile : String) (p : Proc)
    (he : romfile ≠ "") (hf : ext.fileExists romfile = true) :
    createOSystem_rom ext loadROM_argc romfile p =
      if ext.createConsole romfile then
        Outcome.ok () { p with
          cerr := p.cerr ++ ["Running ROM file..."]
          settings := p.settings.setString "rom_file" romfile
          calls := p.calls ++ [SysCall.fileExists romfile, SysCall.createConsole romfile] }
      else
        Outcome.exit 1 { p with
          calls := p.calls ++ [SysCall.fileExists romfile, SysCall.createConsole romfile] } := by
  unfold createOSystem_rom
  simp [he, hf, loadROM_argc_ne_one]

theorem loadROM_unfold (ext : Externals C) (ops : ControllerOps Action C) (self : Constructed)
    (rom_file : String) (p : Proc) :
    loadROM ext ops self rom_file p =
      match createOSystem_rom ext loadROM_argc (resolvedRom ext self rom_file p)
          (atRomStep ext self rom_file p) with
      | Outcome.ok _ p2 =>
        match createOSystem_seed ext p2 with
        | Outcome.ok _ p1 =>
          Outcome.ok
            (reset_game ops
              { controller := ext.newInternalController p1.settings
                episode_score := self.episode_score
                display_active := self.display_active
                max_num_frames := ext.toInt (p1.settings "max_num_frames_per_episode") })
            { p1 with calls := p1.calls ++ [SysCall.newInternalController, SysCall.reset_game] }
        | Outcome.exit st p1 => Outcome.exit st p1
        | Outcome.assertFail p1 => Outcome.assertFail p1
      | Outcome.exit st p2 => Outcome.exit st p2
      | Outcome.assertFail p2 => Outcome.assertFail p2 := by
  unfold loadROM createOSystem resolvedRom atRomStep
  dsimp only
  cases createOSystem_rom ext loadROM_argc
      (createOSystem_settings ext (loadROM_argv self.display_active rom_file) p).1
      (createOSystem_settings ext (loadROM_argv self.display_active rom_file) p).2 with
  | ok u p2 =>
    dsimp only
  | exit st p2 => rfl
  | assertFail p2 => rfl

theorem seedAccepted_setString (ext : Externals C) (st : Settings) (romfile : String) :
    seedAccepted ext (st.setString "rom_file" romfile) = seedAccepted ext st := by
  simp [seedAccepted, Settings.setString]

theorem createOSystem_seed_accepted (ext : Externals C) (p : Proc)
    (h : seedAccepted ext p.settings = true) :
    ∃ (c : SysCall) (line : String), (c = SysCall.srandTime ∨ ∃ n, c = SysCall.srand n)
      ∧ createOSystem_seed ext p =
          Outcome.ok () { p with
            cerr := p.cerr ++ [line]
            calls := p.calls ++ [c, SysCall.setPalette "standard"] } := by
  unfold createOSystem_seed
  by_cases ht : p.settings "random_seed" = "time"
  · exact ⟨SysCall.srandTime, "Random Seed: Time", Or.inl rfl, by simp [ht]⟩
  · have hs : ext.NDEBUG = true ∨ ext.toInt (p.settings "random_seed") ≥ 0 := by
      simpa [seedAccepted, ht] using h
    exact ⟨SysCall.srand (ext.toInt (p.settings "random_seed") % 4294967296),
      "Random Seed: " ++ toString (ext.toInt (p.settings "random_seed")),
      Or.inr ⟨_, rfl⟩, by simp [ht, hs]⟩

theorem createOSystem_seed_rejected (ext : Externals C) (p : Proc)
    (h : seedAccepted ext p.settings = false) :
    createOSystem_seed ext p = Outcome.assertFail p := by
  unfold createOSystem_seed
  simp only [seedAccepted, Bool.or_eq_false_iff, decide_eq_false_iff_not] at h
  obtain ⟨⟨ht, hn⟩, hs⟩ := h
  simp [ht, hn, hs]

/-- C6 as amended: loadROM ends the process with exit(1) at the ROM step
when the resolved ROM path is empty or names no existing file (createConsole
is then not called), or when the file exists and createConsole returns false;
in every other case it does not exit, records the path under rom_file and
goes on to seeding; when seeding accepts the seed (random_seed is time, or
its integer value is not negative, or assert is compiled out) it continues
with the palette, the new controller, max_num_frames read from
max_num_frames_per_episode and reset_game; when seeding rejects the seed the
assertion fails and none of these later steps runs. -/
theorem loadROM_rom_step (ext : Externals C) (ops : ControllerOps Action C)
    (self : Constructed) (rom_file : String) (p : Proc) :
    ((resolvedRom ext self rom_file p = ""
        ∨ ext.fileExists (resolvedRom ext self rom_file p) = false) →
      (loadROM ext ops self rom_file p).status? = some 1
      ∧ ((loadROM ext ops self rom_file p).proc.calls = (atRomStep ext self rom_file p).calls
          ∨ (loadROM ext ops self rom_file p).proc.calls
              = (atRomStep ext self rom_file p).calls
                  ++ [SysCall.fileExists (resolvedRom ext self rom_file p)]))
    ∧ (resolvedRom ext self rom_file p ≠ "" →
        ext.fileExists (resolvedRom ext self rom_file p) = true →
        ext.createConsole (resolvedRom ext self rom_file p) = false →
        (loadROM ext ops self rom_file p).status? = some 1
        ∧ (loadROM ext ops self rom_file p).proc.calls
            = (atRomStep ext self rom_file p).calls
                ++ [SysCall.fileExists (resolvedRom ext self rom_file p),
                    SysCall.createConsole (resolvedRom ext self rom_file p)])
    ∧ (resolvedRom ext self rom_file p ≠ "" →
        ext.fileExists (resolvedRom ext self rom_file p) = true →
        ext.createConsole (resolvedRom ext self rom_file p) = true →
        (loadROM ext ops self rom_file p).status? = none
        ∧ (loadROM ext ops self rom_file p).proc.settings
            = (atRomStep ext self rom_file p).settings.setString "rom_file"
                (resolvedRom ext self rom_file p)
        ∧ (seedAccepted ext (atRomStep ext self rom_file p).settings = true →
            (∃ c : SysCall, (c = SysCall.srandTime ∨ ∃ n, c = SysCall.srand n)
              ∧ (loadROM ext ops self rom_file p).proc.calls
                  = (atRomStep ext self rom_file p).calls
                      ++ [SysCall.fileExists (resolvedRom ext self rom_file p),
                          SysCall.createConsole (resolvedRom ext self rom_file p),
                          c, SysCall.setPalette "standard",
                          SysCall.newInternalController, SysCall.reset_game])
            ∧ (loadROM ext ops self rom_file p).val? = some (reset_game ops
                { controller := ext.newInternalController
                    (loadROM ext ops self rom_file p).proc.settings
                  episode_score := self.episode_score
                  display_active := self.display_active
                  max_num_frames := ext.toInt
                    ((loadROM ext ops self rom_file p).proc.settings
                      "max_num_frames_per_episode") }))
        ∧ (seedAccepted ext (atRomStep ext self rom_file p).settings = false →
            (loadROM ext ops self rom_file p).val? = none
            ∧ (loadROM ext ops self rom_file p).proc.calls
                = (atRomStep ext self rom_file p).calls
                    ++ [SysCall.fileExists (resolvedRom ext self rom_file p),
                        SysCall.createConsole (resolvedRom ext self rom_file p)])) := by
  refine ⟨?_, ?_, ?_⟩
  · intro h
    have hm := createOSystem_rom_missing ext (resolvedRom ext self rom_file p)
      (atRomStep ext self rom_file p) h
    rw [loadROM_unfold]
    cases hr : createOSystem_rom ext loadROM_argc (resolvedRom ext self rom_file p)
        (atRomStep ext self rom_file p) with
    | ok u p2 => rw [hr] at hm; simp [Outcome.status?] at hm
    | exit st p2 => rw [hr] at hm; exact ⟨hm.1, hm.2.2⟩
    | assertFail p2 => rw [hr] at hm; simp [Outcome.status?] at hm
  · intro he hf hc
    rw [loadROM_unfold, createOSystem_rom_console ext _ _ he hf]
    simp [hc, Outcome.status?, Outcome.proc]
  · intro he hf hc
    rw [loadROM_unfold, createOSystem_rom_console ext _ _ he hf]
    simp only [hc, if_true]
    by_cases hs : seedAccepted ext (atRomStep ext self rom_file p).settings = true
    · have hs2 : seedAccepted ext
          ({ (atRomStep ext self rom_file p) with
              cerr := (atRomStep ext self rom_file p).cerr ++ ["Running ROM file..."]
              settings := (atRomStep ext self rom_file p).settings.setString "rom_file"
                (resolvedRom ext self rom_file p)
              calls := (atRomStep ext self rom_file p).calls
                ++ [SysCall.fileExists (resolvedRom ext self rom_file p),
                    SysCall.createConsole (resolvedRom ext self rom_file p)] } : Proc).settings
            = true := by
        show seedAccepted ext ((atRomStep ext self rom_file p).settings.setString "rom_file"
          (resolvedRom ext self rom_file p)) = true
        rw [seedAccepted_setString]
        exact hs
      obtain ⟨c, line, hc1, hc2⟩ := createOSystem_seed_accepted ext _ hs2
      rw [hc2]
      refine ⟨rfl, rfl, ?_, ?_⟩
      · intro _
        exact ⟨⟨c, hc1, by simp [Outcome.proc]⟩, rfl⟩
      · intro hn
        rw [hs] at hn
        exact absurd hn (by decide)
    · have hs1 : seedAccepted ext (atRomStep ext self rom_file p).settings = false := by
        simpa using hs
      have hs2 : seedAccepted ext
          ({ (atRomStep ext self rom_file p) with
              cerr := (atRomStep ext self rom_file p).cerr ++ ["Running ROM file..."]
              settings := (atRomStep ext self rom_file p).settings.setString "rom_file"
                (resolvedRom ext self rom_file p)
              calls := (atRomStep ext self rom_file p).calls
                ++ [SysCall.fileExists (resolvedRom ext self rom_file p),
                    SysCall.createConsole (resolvedRom ext self rom_file p)] } : Proc).settings
            = false := by
        show seedAccepted ext ((atRomStep ext self rom_file p).settings.setString "rom_file"
          (resolvedRom ext self rom_file p)) = false
        rw [seedAccepted_setString]
        exact hs1
      rw [createOSystem_seed_rejected ext _ hs2]
      refine ⟨rfl, rfl, ?_, ?_⟩
      · intro hy
        exact absurd hy hs
      · intro _
        exact ⟨rfl, rfl⟩

/-- C6, the three cases at concrete inputs: an empty ROM path, console
creation failing on pong.bin, and a successful load of pong.bin. -/
theorem loadROM_rom_step_witness :
    ((loadROM (demoExt "time" true) (specOps demoTitle) demoSelf "" demoProc).status? = some 1
      ∧ ((loadROM (demoExt "time" true) (specOps demoTitle) demoSelf "" demoProc).proc.calls
            = (atRomStep (demoExt "time" true) demoSelf "" demoProc).calls
          ∨ (loadROM (demoExt "time" true) (specOps demoTitle) demoSelf "" demoProc).proc.calls
            = (atRomStep (demoExt "time" true) demoSelf "" demoProc).calls
                ++ [SysCall.fileExists (resolvedRom (demoExt "time" true) demoSelf "" demoProc)]))
    ∧ (loadROM (demoExt "time" false) (specOps demoTitle) demoSelf "pong.bin" demoProc).status?
        = some 1
    ∧ (loadROM (demoExt "time" true) (specOps demoTitle) demoSelf "pong.bin" demoProc).status?
        = none
    ∧ (loadROM (demoExt "time" true) (specOps demoTitle) demoSelf "pong.bin" demoProc).val?
        = some demoLoaded
    ∧ (loadROM (demoExt "-1" true) (specOps demoTitle) demoSelf "pong.bin" demoProc).val?
        = none :=
  ⟨(loadROM_rom_step (demoExt "time" true) (specOps demoTitle) demoSelf "" demoProc).1
      (Or.inl (by decide)),
    ((loadROM_rom_step (demoExt "time" false) (specOps demoTitle) demoSelf "pong.bin"
      demoProc).2.1 (by decide) (by decide) (by decide)).1,
    ((loadROM_rom_step (demoExt "time" true) (specOps demoTitle) demoSelf "pong.bin"
      demoProc).2.2 (by decide) (by decide) (by decide)).1,
    (((loadROM_rom_step (demoExt "time" true) (specOps demoTitle) demoSelf "pong.bin"
      demoProc).2.2 (by decide) (by decide) (by decide)).2.2.1 (by decide)).2,
    (((loadROM_rom_step (demoExt "-1" true) (specOps demoTitle) demoSelf "pong.bin"
      demoProc).2.2 (by decide) (by decide) (by decide)).2.2.2 (by decide)).1⟩

/-- C6 as stated fails: with random_seed set to -1 the file pong.bin exists
and createConsole succeeds on it, yet loadROM does not go on to the palette,
the controller and reset_game: the assertion on the seed fails, nothing is
returned, and the last call made is createConsole. -/
theorem loadROM_negative_seed_stops :
    resolvedRom (demoExt "-1" true) demoSelf "pong.bin" demoProc = "pong.bin"
    ∧ (demoExt "-1" true).fileExists "pong.bin" = true
    ∧ (demoExt "-1" true).createConsole "pong.bin" = true
    ∧ (loadROM (demoExt "-1" true) (specOps demoTitle) demoSelf "pong.bin" demoProc).val? = none
    ∧ (loadROM (demoExt "-1" true) (specOps demoTitle) demoSelf "pong.bin" demoProc).status?
        = none
    ∧ (loadROM (demoExt "-1" true) (specOps demoTitle) demoSelf "pong.bin" demoProc).proc.calls
        = [SysCall.fileExists "pong.bin", SysCall.createConsole "pong.bin"]
    ∧ SysCall.setPalette "standard" ∉
        (loadROM (demoExt "-1" true) (specOps demoTitle) demoSelf "pong.bin" demoProc).proc.calls
    ∧ SysCall.reset_game ∉
        (loadROM (demoExt "-1" true) (specOps demoTitle) demoSelf "pong.bin" demoProc).proc.calls := by
  refine ⟨by decide, by decide, by decide, by decide, by decide, by decide, by decide, by decide⟩

/-- C7: the constructor called with display_screen true in a compilation
without __USE_SDL ends the process with exit status 0, writes its three
lines to cout and writes nothing to cerr; and when console creation fails
(pong.bin with the collaborators of demoExt) loadROM exits with status 1 and
the interface itself writes no line to cerr. -/
theorem construct_display_without_SDL (p : Proc) :
    (ALEInterface.construct false true p).status? = some 0
    ∧ (ALEInterface.construct false true p).val? = none
    ∧ (ALEInterface.construct false true p).proc.cerr = p.cerr
    ∧ (ALEInterface.construct false true p).proc.cout = p.cout ++
        ["Screen display requires directive __USE_SDL to be defined.",
         "Please recompile this code with flag \x27-D__USE_SDL\x27.",
         "Also ensure ALE has been compiled with USE_SDL active (see ALE makefile)."]
    ∧ (loadROM (demoExt "time" false) (specOps demoTitle) demoSelf "pong.bin" demoProc).status?
        = some 1
    ∧ (loadROM (demoExt "time" false) (specOps demoTitle) demoSelf "pong.bin" demoProc).proc.cerr
        = []
    ∧ (loadROM (demoExt "time" true) (specOps demoTitle) demoSelf "" demoProc).status? = some 1
    ∧ (loadROM (demoExt "time" true) (specOps demoTitle) demoSelf "" demoProc).proc.cerr
        = ["No ROM File specified or the ROM file was not found."] := by
  refine ⟨rfl, rfl, rfl, rfl, by decide, by decide, by decide, by decide⟩

/-- C10: the loop of loadROM writes argv[i] for i = 0, 1, ..., 6 (more
iterations unrolled give the same list); the last index, 6, equals argc and
is not a valid index of the array of argc = 6 elements. -/
theorem loadROM_argv_loop_writes :
    loadROM_argvWrites = [0, 1, 2, 3, 4, 5, 6]
    ∧ (∀ k : Nat, argvLoop loadROM_argc (loadROM_argc.toNat + 2 + k) 0 = loadROM_argvWrites)
    ∧ loadROM_argc ∈ loadROM_argvWrites
    ∧ ¬ (∀ i ∈ loadROM_argvWrites, 0 ≤ i ∧ i < loadROM_argc) := by
  have h1 : loadROM_argvWrites = [0, 1, 2, 3, 4, 5, 6] := by decide
  refine ⟨h1, ?_, ?_, ?_⟩
  · intro k
    have h6 : loadROM_argc.toNat = 6 := by decide
    have hk : loadROM_argc.toNat + 2 + k = (k + 7) + 1 := by omega
    rw [h1, hk]
    simp [argvLoop, loadROM_argc]
  · rw [h1]
    decide
  · rw [h1]
    decide

end Load

end ALE
